import Mathlib

/-!
# Verification of the mlscan-rs scan pipeline

Shallow embedding of the mlscan-rs port scanner (Rust) in Lean 4.

Conventions of the embedding:
* machine integers (`u16`, `u64`, `usize`, `u8` octets) become `Nat`
  (no arithmetic in the embedded fragment can overflow);
* `f64` response times and rates become `ℚ` (the embedded computations are
  sums, counts and divisions whose exactness is what the claims test);
* wall-clock timestamps (`chrono::Utc::now`, `Instant`) carry no information
  for the verified properties and are elided from the records; the elapsed
  time of a probe is instead supplied by the abstract probe function;
* `tokio` tasks joined with `join_all` yield their outputs in spawn order,
  so the fan-out/join of `scanner.rs` is embedded as an order-preserving map;
* fallible Rust functions returning `anyhow::Result` become `Except String`;
* modules declared in `main.rs`/`scanner.rs` whose sources are not part of
  the repository snapshot (`adaptive.rs`, `utils.rs`, `network.rs`,
  `results.rs`, `service_detection.rs`, `scanner/tcp.rs`, `scanner/udp.rs`)
  are modelled from the specification document; each such definition carries
  a doc comment starting with `Modelled from the spec:`.
-/

namespace MLScan

/-- Embeds `ScanType` from `cli.rs` (derives `ValueEnum`, `Copy`, `PartialEq`). -/
inductive ScanType
  | Syn
  | Connect
  | Udp
  | Fin
  | Xmas
  | Null
deriving DecidableEq, Repr

/-- Embeds `PortStatus` from the result model (`scanner/results.rs`, re-exported by
`scanner.rs`); the four-valued classification `{Open, Closed, Filtered, Error}`
used throughout `scanner.rs` and `output.rs`. -/
inductive PortStatus
  | Open
  | Closed
  | Filtered
  | Error
deriving DecidableEq, Repr

/-- Embeds `std::net::IpAddr`: a v4 address as four octets or a v6 address as eight
16-bit segments.  Octet/segment range constraints are irrelevant to the
embedded computations, which only compare them to constants. -/
inductive IpAddr
  | v4 (o0 o1 o2 o3 : Nat)
  | v6 (s0 s1 s2 s3 s4 s5 s6 s7 : Nat)
deriving DecidableEq, Repr

/-- Embeds `Ipv6Addr::is_loopback`: the address `::1`. -/
def IpAddr.isLoopbackV6 (s0 s1 s2 s3 s4 s5 s6 s7 : Nat) : Bool :=
  s0 == 0 && s1 == 0 && s2 == 0 && s3 == 0 && s4 == 0 && s5 == 0 && s6 == 0 && s7 == 1

/-- Embeds `is_private_ip` from `scanner.rs` lines 23–44: RFC 1918 private ranges,
localhost, and link-local for v4; loopback, link-local (`fe80` first segment)
and unique-local (`fc00`/`fd00` first segment) for v6. -/
def is_private_ip : IpAddr → Bool
  | .v4 o0 o1 _ _ =>
      (o0 == 10) ||
      (o0 == 172 && decide (16 ≤ o1) && decide (o1 ≤ 31)) ||
      (o0 == 192 && o1 == 168) ||
      (o0 == 127) ||
      (o0 == 169 && o1 == 254)
  | .v6 s0 s1 s2 s3 s4 s5 s6 s7 =>
      IpAddr.isLoopbackV6 s0 s1 s2 s3 s4 s5 s6 s7 ||
      s0 == 0xfe80 ||
      s0 == 0xfc00 ||
      s0 == 0xfd00

/-- The network-class tag of the adaptive controller. -/
inductive NetworkClass
  | Loopback
  | LinkLocal
  | Private
  | Public
deriving DecidableEq, Repr

/-- Modelled from the spec: `classify_network` lives in `adaptive.rs`, which
is absent from the snapshot.  Spec §4.4: "v4 `127.0.0.0/8` → Loopback; v4
`169.254.0.0/16` → LinkLocal; v4 `10/8`, `172.16/12`, `192.168/16` → Private;
else Public.  v6 loopback → Loopback; `fe80::/10` → LinkLocal; `fc00::/7` →
Private; else Public." -/
def classify_network : IpAddr → NetworkClass
  | .v4 o0 o1 _ _ =>
      if o0 = 127 then .Loopback
      else if o0 = 169 ∧ o1 = 254 then .LinkLocal
      else if o0 = 10 ∨ (o0 = 172 ∧ 16 ≤ o1 ∧ o1 ≤ 31) ∨ (o0 = 192 ∧ o1 = 168) then .Private
      else .Public
  | .v6 s0 s1 s2 s3 s4 s5 s6 s7 =>
      if IpAddr.isLoopbackV6 s0 s1 s2 s3 s4 s5 s6 s7 then .Loopback
      else if 0xfe80 ≤ s0 ∧ s0 ≤ 0xfebf then .LinkLocal
      else if 0xfc00 ≤ s0 ∧ s0 ≤ 0xfdff then .Private
      else .Public

/-- The choice of TCP connect probe, from the `ScanType::Connect` arm of
`scan_single_host` (`scanner.rs` lines 167–174): `fast_connect_scan` when
`is_private_ip`, `connect_scan` otherwise. -/
inductive ConnectKind
  | fast
  | ordinary
deriving DecidableEq, Repr

/-- The dispatch of `scanner.rs` lines 167–174 for a `Connect` scan. -/
def connectProbeChoice (ip : IpAddr) : ConnectKind :=
  if is_private_ip ip then .fast else .ordinary

/-- The predicate the spec uses for the fast path, stated from the spec's own
words for comparison with the source dispatch ("Fast TCP connect
(private/loopback addresses only)", with Private and Loopback as defined by
the §4.4 classifier). -/
def specFastEligible (ip : IpAddr) : Bool :=
  decide (classify_network ip = .Private ∨ classify_network ip = .Loopback)

/-! ## Effective parameters (scanner.rs lines 136–147) -/

/-- The parameter triple returned by `AdaptiveLearning::get_optimal_params`,
as consumed in `scan_single_host` lines 137–140.  A zero component means the
profile supplies no value for it (the cold case: line 143's `> 0` guards). -/
structure OptimalParams where
  timeout : Nat
  rate_limit : Nat
  parallelism : Nat
deriving DecidableEq, Repr

/-- The triple actually used for a host. -/
structure EffectiveParams where
  timeout : Nat
  rate_limit : Nat
  parallelism : Nat
deriving DecidableEq, Repr

/-- From `scanner.rs` lines 143–145: each adaptive component is used when
positive, otherwise the scanner's operator-supplied field is used. -/
def effectiveParams (optimal : OptimalParams)
    (rate_limit timeout parallel_hosts : Nat) : EffectiveParams :=
  { timeout := if optimal.timeout > 0 then optimal.timeout else timeout
    rate_limit := if optimal.rate_limit > 0 then optimal.rate_limit else rate_limit
    parallelism := if optimal.parallelism > 0 then optimal.parallelism else parallel_hosts }

/-- From `scanner.rs` line 147: the per-host port-task semaphore is created with
the effective parallelism. -/
def portTaskSemaphoreSize (optimal : OptimalParams)
    (rate_limit timeout parallel_hosts : Nat) : Nat :=
  (effectiveParams optimal rate_limit timeout parallel_hosts).parallelism

/-- From `scanner.rs` line 85: the host-level semaphore is created with the
scanner's `parallel_hosts` field. -/
def hostSemaphoreSize (parallel_hosts : Nat) : Nat := parallel_hosts

/-- From `cli.rs` lines 25–26: `--parallel-hosts` defaults to `10`. -/
def cliDefaultParallelHosts : Nat := 10

/-- From `cli.rs` line 19: `--rate-limit` defaults to `100`. -/
def cliDefaultRateLimit : Nat := 100

/-- From `cli.rs` line 22: `--timeout` defaults to `1000`. -/
def cliDefaultTimeout : Nat := 1000

/-- From `config.rs` line 73: `ScanningConfig::default` sets
`default_parallelism: 50`.  `main.rs` constructs the `Scanner` from the CLI
fields alone, so this value is not wired into the scan path. -/
def configDefaultParallelism : Nat := 50

/-! ## Result model (scanner/results.rs as used by scanner.rs and output.rs) -/

/-- Modelled from the spec: `ServiceInfo` lives in the absent `results.rs`.
Spec §3: `{ name, optional version, optional banner, confidence ∈ [0,1],
extra }`.  `scanner.rs` consumes only `name`; the extra map carries no weight
in the claims and is elided. -/
structure ServiceInfo where
  name : String
  version : Option String
  banner : Option String
  confidence : ℚ
deriving DecidableEq, Repr

/-- Embeds `PortResult` with the fields populated by the `scanner.rs` port-task
closure (lines 188–194): port, status, the `is_filtered` flag, an elapsed
time, and the service slot initialised to `None`. -/
structure PortResult where
  port : Nat
  status : PortStatus
  is_filtered : Bool
  response_time : Option ℚ
  service_detected : Option ServiceInfo
deriving DecidableEq, Repr

/-- Rendering of an address, standing in for `IpAddr::to_string` (used for
`ScanResult.target` and the CSV rows; no claim inspects its exact shape).
v6 compression of zero runs is not reproduced. -/
def ipToString : IpAddr → String
  | .v4 o0 o1 o2 o3 =>
      toString o0 ++ "." ++ toString o1 ++ "." ++ toString o2 ++ "." ++ toString o3
  | .v6 s0 s1 s2 s3 s4 s5 s6 s7 =>
      String.intercalate ":"
        ([s0, s1, s2, s3, s4, s5, s6, s7].map (Nat.toDigits 16 · |> String.mk))

/-- Embeds `ScanResult` (one host) as constructed in `scan_single_host` lines
268–275; the two timestamps are elided (wall clock). -/
structure ScanResult where
  target : String
  target_ip : IpAddr
  scan_type : ScanType
  ports : List PortResult
deriving DecidableEq, Repr

/-- Embeds `MultiHostScanResult` as constructed in `scan` lines 118–126;
timestamps elided. -/
structure MultiHostScanResult where
  target_spec : String
  scan_type : ScanType
  total_hosts : Nat
  total_ports : Nat
  hosts : List ScanResult
deriving DecidableEq, Repr

/-! ## Probe fan-out within one host (scanner.rs lines 153–202)

A probe is abstracted as a function from the port and the effective timeout
to a classification and an elapsed time: the probe bodies live in the absent
`scanner/tcp.rs`/`scanner/udp.rs`, and the claims settled against this
embedding quantify over the probe's behaviour.  The per-port tasks are
spawned in `port_list` order and collected with `join_all`, which yields
outputs in spawn order, so the fan-out is an order-preserving map. -/

/-- The body of one port task (`scanner.rs` lines 161–195): run the probe,
record port, status, the `is_filtered` flag, the elapsed time (always
`Some`), and a `None` service slot. -/
def portTask (probe : Nat → Nat → PortStatus × ℚ) (timeout port : Nat) :
    PortResult :=
  let r := probe port timeout
  { port := port
    status := r.1
    is_filtered := r.1 == .Filtered
    response_time := some r.2
    service_detected := none }

/-- All port tasks of one host, joined in spawn order. -/
def scanPorts (probe : Nat → Nat → PortStatus × ℚ) (timeout : Nat)
    (port_list : List Nat) : List PortResult :=
  port_list.map (portTask probe timeout)

/-- The service-detection pass (`scanner.rs` lines 204–211): for each result
in order, if the status is `Open` the detector is invoked and its answer
stored; otherwise the result is untouched.  The second component logs the
ports for which the detector was invoked. -/
def servicePass (detect : Nat → Option ServiceInfo) :
    List PortResult → List PortResult × List Nat
  | [] => ([], [])
  | r :: rest =>
      let tail := servicePass detect rest
      if r.status = .Open then
        ({ r with service_detected := detect r.port } :: tail.1, r.port :: tail.2)
      else
        (r :: tail.1, tail.2)

/-! ## Telemetry folded for the adaptive controller (scanner.rs lines 216–263) -/

/-- Embeds `adaptive::PortScanResult` with the fields filled at lines 235–241. -/
structure PortScanResult where
  port : Nat
  is_open : Bool
  is_filtered : Bool
  response_time : Option ℚ
  service_detected : Option String
deriving DecidableEq, Repr

/-- Embeds `adaptive::ScanLearningData` with the fields filled at lines 253–263
(`scan_duration`, a wall-clock quantity, elided). -/
structure ScanLearningData where
  target : IpAddr
  network_type : NetworkClass
  port_results : List PortScanResult
  avg_response_time : ℚ
  timeout_rate : ℚ
  parallelism_used : Nat
  rate_limit_used : Nat
  scan_performance : ℚ
deriving DecidableEq, Repr

/-- Lines 235–241: the per-port learning records. -/
def learningPortResults (rs : List PortResult) : List PortScanResult :=
  rs.map fun r =>
    { port := r.port
      is_open := r.status == .Open
      is_filtered := r.status == .Filtered
      response_time := r.response_time
      service_detected := r.service_detected.map (·.name) }

/-- Lines 227–233: sum of the recorded response times (`total_response_time`,
accumulated only when `response_time` is `Some`). -/
def totalResponseTime (rs : List PortResult) : ℚ :=
  rs.foldl (fun acc r => match r.response_time with
    | some rt => acc + rt
    | none => acc) 0

/-- Lines 227–233: `response_count`, the number of results carrying a
response time. -/
def responseCount (rs : List PortResult) : Nat :=
  rs.countP (fun r => r.response_time.isSome)

/-- Lines 227–233: `timeout_count`, the number of results with no recorded
response time. -/
def timeoutCount (rs : List PortResult) : Nat :=
  rs.countP (fun r => r.response_time.isNone)

/-- Lines 244–248: `avg_response_time`, with the effective timeout as the
fallback when nothing responded. -/
def avgResponseTime (rs : List PortResult) (effective_timeout : Nat) : ℚ :=
  if responseCount rs > 0 then
    totalResponseTime rs / (responseCount rs : ℚ)
  else
    (effective_timeout : ℚ)

/-- Line 250: `timeout_rate = timeout_count / port_results.len()`. -/
def timeoutRate (rs : List PortResult) : ℚ :=
  (timeoutCount rs : ℚ) / (rs.length : ℚ)

/-- Lines 217–263 assembled: the learning datum handed to
`learn_from_scan` for one host. -/
def hostLearningData (ip : IpAddr) (eff : EffectiveParams)
    (rs : List PortResult) : ScanLearningData :=
  { target := ip
    network_type := classify_network ip
    port_results := learningPortResults rs
    avg_response_time := avgResponseTime rs eff.timeout
    timeout_rate := timeoutRate rs
    parallelism_used := eff.parallelism
    rate_limit_used := eff.rate_limit
    scan_performance := 1 - timeoutRate rs }

/-! ## One host scan (scanner.rs lines 129–276)

The adaptive controller (`adaptive.rs`, absent from the snapshot) is
abstracted by a state type `σ` together with the two operations `scan_single_host`
uses: `get_optimal_params` (line 137) and `learn_from_scan` (line 266).
Per the spec's data model the `AdaptiveLearningState` is plain data
(`{ profiles: map, learning_rate }`), so Rust's `.clone()` on it yields an
independent copy: cloning is value copying in this embedding. -/

/-- The scanner's operator-supplied fields (`Scanner::new`, lines 55–63). -/
structure ScannerCfg where
  rate_limit : Nat
  timeout : Nat
  parallel_hosts : Nat
deriving DecidableEq, Repr

/-- The outcome of `scan_single_host` for one host: the host result, the log
of ports on which service detection was invoked, the learning datum built at
lines 253–263, and the adaptive state after the `learn_from_scan` call of
line 266. -/
structure HostOutcome (σ : Type) where
  result : ScanResult
  service_log : List Nat
  learning : ScanLearningData
  state : σ

/-- Embeds `scan_single_host` (lines 129–276): derive effective parameters from the
adaptive state, run all port tasks, run the service-detection pass, build the
learning datum, learn, and assemble the host result. -/
def scanSingleHost {σ : Type} (getParams : σ → IpAddr → OptimalParams)
    (learn : σ → ScanLearningData → σ)
    (probe : IpAddr → Nat → Nat → PortStatus × ℚ)
    (detect : IpAddr → Nat → Option ServiceInfo)
    (cfg : ScannerCfg) (st : ScanType) (s : σ) (target_ip : IpAddr)
    (port_list : List Nat) : HostOutcome σ :=
  let optimal := getParams s target_ip
  let eff := effectiveParams optimal cfg.rate_limit cfg.timeout cfg.parallel_hosts
  let raw := scanPorts (probe target_ip) eff.timeout port_list
  let detected := servicePass (detect target_ip) raw
  let data := hostLearningData target_ip eff detected.1
  { result :=
      { target := ipToString target_ip
        target_ip := target_ip
        scan_type := st
        ports := detected.1 }
    service_log := detected.2
    learning := data
    state := learn s data }

/-! ## Multi-host scan (scanner.rs lines 65–127) -/

/-- The host fan-out of `scan` (lines 85–113) as the source writes it: for
every target a fresh `Scanner` clone is built whose `adaptive_learning` field
is a clone of the current state (lines 95–96), the host is scanned through
that clone, and the clone — holding the state mutated by `learn_from_scan` —
is dropped when its task ends.  The scanner's own state is never written, so
the pair returned is (host results in target order, the unchanged state). -/
def scanHostsCode {σ : Type} (getParams : σ → IpAddr → OptimalParams)
    (learn : σ → ScanLearningData → σ)
    (probe : IpAddr → Nat → Nat → PortStatus × ℚ)
    (detect : IpAddr → Nat → Option ServiceInfo)
    (cfg : ScannerCfg) (st : ScanType) (s : σ) (targets : List IpAddr)
    (port_list : List Nat) : List ScanResult × σ :=
  (targets.map fun ip =>
      (scanSingleHost getParams learn probe detect cfg st s ip port_list).result,
   s)

/-- Modelled from the spec: the state flow §2.3/§3/§5 describe — "at host
completion the adaptive controller folds it into a per-(network-class)
profile used to parameterise future scans"; profiles are "mutated in place
after each host completes" and the scheduler owns one `AdaptiveLearningState`
for the whole multi-host scan.  Each host is scanned with the state left by
the previous host's `learn` fold. -/
def scanHostsSpec {σ : Type} (getParams : σ → IpAddr → OptimalParams)
    (learn : σ → ScanLearningData → σ)
    (probe : IpAddr → Nat → Nat → PortStatus × ℚ)
    (detect : IpAddr → Nat → Option ServiceInfo)
    (cfg : ScannerCfg) (st : ScanType) (s : σ) :
    List IpAddr → List Nat → List ScanResult × σ
  | [], _ => ([], s)
  | ip :: rest, port_list =>
      let outcome := scanSingleHost getParams learn probe detect cfg st s ip port_list
      let tail := scanHostsSpec getParams learn probe detect cfg st outcome.state rest port_list
      (outcome.result :: tail.1, tail.2)

/-- Embeds `scan` (lines 65–127) after successful expansion: fan out over the hosts
and assemble the `MultiHostScanResult` with `total_hosts :=` the number of
host results (line 123) and `total_ports :=` the length of the expanded port
list (line 124). -/
def scanCode {σ : Type} (getParams : σ → IpAddr → OptimalParams)
    (learn : σ → ScanLearningData → σ)
    (probe : IpAddr → Nat → Nat → PortStatus × ℚ)
    (detect : IpAddr → Nat → Option ServiceInfo)
    (cfg : ScannerCfg) (st : ScanType) (s : σ) (target_spec : String)
    (targets : List IpAddr) (port_list : List Nat) :
    MultiHostScanResult × σ :=
  let fanned := scanHostsCode getParams learn probe detect cfg st s targets port_list
  ({ target_spec := target_spec
     scan_type := st
     total_hosts := fanned.1.length
     total_ports := port_list.length
     hosts := fanned.1 },
   fanned.2)

/-- Embeds `scan` (lines 65–127) in full: lines 71–72 propagate an expansion error
with `?` before the progress bar is built or any host task is spawned.  The
expansion outcomes stand in for `parse_targets(target)` / `parse_ports(ports)`. -/
def scanTop {σ : Type} (getParams : σ → IpAddr → OptimalParams)
    (learn : σ → ScanLearningData → σ)
    (probe : IpAddr → Nat → Nat → PortStatus × ℚ)
    (detect : IpAddr → Nat → Option ServiceInfo)
    (cfg : ScannerCfg) (st : ScanType) (s : σ) (target_spec : String)
    (targetsE : Except String (List IpAddr))
    (portsE : Except String (List Nat)) :
    Except String (MultiHostScanResult × σ) := do
  let targets ← targetsE
  let port_list ← portsE
  pure (scanCode getParams learn probe detect cfg st s target_spec targets port_list)

/-! ## Expansion (utils.rs / network.rs, absent from the snapshot) -/

/-- One token of a port specification: a literal, an inclusive range, or a
named alias. -/
inductive PortToken
  | lit (n : Nat)
  | range (lo hi : Nat)
  | common
  | web
  | mail
  | db
deriving DecidableEq, Repr

/-- Modelled from the spec: the named alias sets of §3 (`utils.rs` absent).
`top100` is described only as "the 100 statistically most-open TCP ports"
with no concrete list, so it is not part of the model. -/
def PortToken.members : PortToken → List Nat
  | .lit n => [n]
  | .range lo hi => List.range' lo (hi + 1 - lo)
  | .common => [21, 22, 23, 25, 53, 80, 110, 135, 139, 143, 443, 445, 993,
      995, 1433, 1521, 3306, 3389, 5432, 5900, 6379, 8080, 8443, 27017]
  | .web => [80, 443, 8000, 8008, 8080, 8443, 8888, 9000, 3000, 5000]
  | .mail => [25, 110, 143, 465, 587, 993, 995]
  | .db => [1433, 1521, 3306, 5432, 6379, 27017]

/-- Modelled from the spec: §4.1's validity conditions for one port token —
ports lie in 1…65535 and a range satisfies `L ≤ H`. -/
def PortToken.valid : PortToken → Bool
  | .lit n => decide (1 ≤ n) && decide (n ≤ 65535)
  | .range lo hi => decide (1 ≤ lo) && decide (lo ≤ hi) && decide (hi ≤ 65535)
  | _ => true

/-- Modelled from the spec: `parse_ports` (`utils.rs` absent).  §4.1: "Fails
with `PortSpecError` on zero, out-of-range, or malformed input.  Result is
deduplicated in ascending order."  The ascending deduplicated result is
realised as the insertion sort of the deduplicated mentioned ports. -/
def parse_ports (tokens : List PortToken) : Except String (List Nat) :=
  if tokens.all PortToken.valid then
    let mentioned := tokens.flatMap PortToken.members
    .ok (List.insertionSort (· ≤ ·) mentioned.dedup)
  else
    .error "PortSpecError"

/-- First-seen-order deduplication of a list. -/
def dedupFirstSeen {α : Type} [DecidableEq α] (l : List α) : List α :=
  l.foldl (fun acc a => if a ∈ acc then acc else acc ++ [a]) []

/-- Modelled from the spec: the shape of `parse_targets` output
(`network.rs` absent).  §4.1: each token expands to a sequence of addresses
(literal, resolved hostname, dash range, or CIDR block — resolution is I/O
and the per-token expansions are taken as given), and "Output is the ordered,
deduplicated concatenation, preserving first-seen order across tokens." -/
def parse_targets_shape (tokenExpansions : List (List IpAddr)) : List IpAddr :=
  dedupFirstSeen tokenExpansions.flatten

/-! ## CSV rendering (output.rs lines 283–301) -/

/-- Modelled from the spec: the `Display` impl of `PortStatus` lives in the
absent `results.rs`; §6 fixes the strings as "the lowercase `PortStatus`". -/
def statusDisplay : PortStatus → String
  | .Open => "open"
  | .Closed => "closed"
  | .Filtered => "filtered"
  | .Error => "error"

/-- The derived `Debug` rendering of `ScanType` (`cli.rs` line 44),
used by `format_csv`'s `{:?}`. -/
def scanTypeDebug : ScanType → String
  | .Syn => "Syn"
  | .Connect => "Connect"
  | .Udp => "Udp"
  | .Fin => "Fin"
  | .Xmas => "Xmas"
  | .Null => "Null"

/-- One CSV row (`output.rs` lines 289–296):
`{target},{target_ip},{port},{status},{scan_type:?}` and a newline. -/
def csvRow (host : ScanResult) (st : ScanType) (p : PortResult) : String :=
  host.target ++ "," ++ ipToString host.target_ip ++ "," ++ toString p.port ++
    "," ++ statusDisplay p.status ++ "," ++ scanTypeDebug st ++ "\n"

/-- The CSV header pushed at `output.rs` line 285. -/
def csvHeader : String := "target,target_ip,port,status,scan_type\n"

/-- Embeds `format_csv` (`output.rs` lines 283–301): start from the header and walk
the hosts in order, appending one row per port in order. -/
def format_csv (r : MultiHostScanResult) : String :=
  r.hosts.foldl
    (fun acc h => h.ports.foldl (fun acc2 p => acc2 ++ csvRow h r.scan_type p) acc)
    csvHeader

/-! ## Host discovery (scanner/discovery.rs) -/

/-- The outcome of one `timeout(duration, TcpStream::connect(addr))` attempt
as discriminated by `is_host_up`: the connect future completed
(`Ok(Ok(_))`), failed with `ConnectionRefused`, failed with another error
kind, or the outer timeout elapsed (`Err(_)`). -/
inductive ConnectOutcome
  | connected
  | refused
  | otherError
  | timedOut
deriving DecidableEq, Repr

/-- From `discovery.rs` line 8: the fixed probe ports. -/
def check_ports : List Nat := [80, 443, 22, 445, 135, 3389]

/-- The `for port in check_ports` loop of `is_host_up` (lines 11–23): return
`true` on a completed connection or a `ConnectionRefused` error; on any other
error or on timeout try the next port; `false` once the list is exhausted. -/
def discoveryLoop (conn : Nat → Nat → ConnectOutcome) (duration : Nat) :
    List Nat → Bool
  | [] => false
  | p :: rest =>
      match conn p duration with
      | .connected => true
      | .refused => true
      | .otherError => discoveryLoop conn duration rest
      | .timedOut => discoveryLoop conn duration rest

/-- Embeds `is_host_up` (`discovery.rs` lines 6–27): per-attempt budget
`timeout_ms / 2` (line 9), then the loop over `check_ports`.  The network is
abstracted as `conn port duration`. -/
def is_host_up (conn : Nat → Nat → ConnectOutcome) (timeout_ms : Nat) : Bool :=
  discoveryLoop conn (timeout_ms / 2) check_ports

/-- Embeds `tcp_ping` (`discovery.rs` lines 30–32): delegates to `is_host_up`. -/
def tcp_ping (conn : Nat → Nat → ConnectOutcome) (timeout_ms : Nat) : Bool :=
  is_host_up conn timeout_ms

/-! ## Helper lemmas -/

theorem discoveryLoop_eq_true_iff (conn : Nat → Nat → ConnectOutcome) (d : Nat) :
    ∀ l : List Nat, discoveryLoop conn d l = true ↔
      ∃ p ∈ l, conn p d = .connected ∨ conn p d = .refused := by
  intro l
  induction l with
  | nil => simp [discoveryLoop]
  | cons p rest ih =>
      simp only [discoveryLoop]
      cases h : conn p d <;> simp [h, ih]

theorem connectProbeChoice_eq_fast (ip : IpAddr) :
    connectProbeChoice ip = .fast ↔ is_private_ip ip = true := by
  unfold connectProbeChoice
  cases h : is_private_ip ip <;> simp [h]

theorem servicePass_map_port (detect : Nat → Option ServiceInfo) :
    ∀ rs : List PortResult, (servicePass detect rs).1.map (·.port) = rs.map (·.port) := by
  intro rs
  induction rs with
  | nil => rfl
  | cons r rest ih =>
      simp only [servicePass]
      by_cases h : r.status = .Open <;> simp [h, ih]

theorem servicePass_mem (detect : Nat → Option ServiceInfo) :
    ∀ rs : List PortResult, ∀ r ∈ (servicePass detect rs).1,
      ∃ r0 ∈ rs, r.port = r0.port ∧ r.status = r0.status := by
  intro rs
  induction rs with
  | nil => intro r hr; cases hr
  | cons r0 rest ih =>
      intro r hr
      by_cases h : r0.status = .Open
      · simp only [servicePass, if_pos h, List.mem_cons] at hr
        rcases hr with rfl | hr
        · exact ⟨r0, List.mem_cons_self _ _, rfl, rfl⟩
        · obtain ⟨r1, hmem, hp, hs⟩ := ih r hr
          exact ⟨r1, List.mem_cons_of_mem _ hmem, hp, hs⟩
      · simp only [servicePass, if_neg h, List.mem_cons] at hr
        rcases hr with rfl | hr
        · exact ⟨r, List.mem_cons_self _ _, rfl, rfl⟩
        · obtain ⟨r1, hmem, hp, hs⟩ := ih r hr
          exact ⟨r1, List.mem_cons_of_mem _ hmem, hp, hs⟩

theorem servicePass_service_none (detect : Nat → Option ServiceInfo) :
    ∀ rs : List PortResult, (∀ r ∈ rs, r.service_detected = none) →
      ∀ r ∈ (servicePass detect rs).1, r.service_detected ≠ none → r.status = .Open := by
  intro rs
  induction rs with
  | nil => intro _ r hr; cases hr
  | cons r0 rest ih =>
      intro hnone r hr hsome
      by_cases h : r0.status = .Open
      · simp only [servicePass, if_pos h, List.mem_cons] at hr
        rcases hr with rfl | hr
        · exact h
        · exact ih (fun r' hr' => hnone r' (List.mem_cons_of_mem _ hr')) r hr hsome
      · simp only [servicePass, if_neg h, List.mem_cons] at hr
        rcases hr with rfl | hr
        · exact absurd (hnone r (List.mem_cons_self _ _)) hsome
        · exact ih (fun r' hr' => hnone r' (List.mem_cons_of_mem _ hr')) r hr hsome

theorem servicePass_log (detect : Nat → Option ServiceInfo) :
    ∀ rs : List PortResult,
      (servicePass detect rs).2 =
        ((servicePass detect rs).1.filter (fun r => r.status == .Open)).map (·.port) := by
  intro rs
  induction rs with
  | nil => rfl
  | cons r rest ih =>
      simp only [servicePass]
      by_cases h : r.status = .Open <;> simp [h, ih]

theorem scanPorts_map_port (probe : Nat → Nat → PortStatus × ℚ) (t : Nat)
    (l : List Nat) : (scanPorts probe t l).map (·.port) = l := by
  induction l with
  | nil => rfl
  | cons p rest ih => simp [scanPorts, portTask] at ih ⊢; exact ih

theorem scanPorts_mem (probe : Nat → Nat → PortStatus × ℚ) (t : Nat)
    (l : List Nat) : ∀ r ∈ scanPorts probe t l,
      r.status = (probe r.port t).1 ∧ r.service_detected = none ∧
        r.response_time = some (probe r.port t).2 := by
  intro r hr
  simp only [scanPorts, List.mem_map] at hr
  obtain ⟨p, _, rfl⟩ := hr
  simp [portTask]

theorem parse_ports_sorted (tokens : List PortToken) (P : List Nat)
    (h : parse_ports tokens = .ok P) : List.Sorted (· < ·) P ∧ P.Nodup := by
  unfold parse_ports at h
  split at h
  · injection h with h
    subst h
    have hnd : (List.insertionSort (· ≤ ·)
        ((tokens.flatMap PortToken.members).dedup)).Nodup :=
      ((List.perm_insertionSort _ _).nodup_iff).mpr (List.nodup_dedup _)
    exact ⟨(List.sorted_insertionSort _ _).lt_of_le hnd, hnd⟩
  · cases h

theorem foldl_dedup_nodup {α : Type} [DecidableEq α] :
    ∀ (l acc : List α), acc.Nodup →
      (l.foldl (fun acc a => if a ∈ acc then acc else acc ++ [a]) acc).Nodup := by
  intro l
  induction l with
  | nil => intro acc h; exact h
  | cons a rest ih =>
      intro acc h
      rw [List.foldl_cons]
      by_cases hm : a ∈ acc
      · rw [if_pos hm]; exact ih acc h
      · rw [if_neg hm]
        refine ih _ ?_
        simp [List.nodup_append, h, hm]

theorem dedupFirstSeen_nodup {α : Type} [DecidableEq α] (l : List α) :
    (dedupFirstSeen l).Nodup :=
  foldl_dedup_nodup l [] (by simp)

theorem scanSingleHost_target_ip {σ : Type} (getParams : σ → IpAddr → OptimalParams)
    (learn : σ → ScanLearningData → σ) (probe : IpAddr → Nat → Nat → PortStatus × ℚ)
    (detect : IpAddr → Nat → Option ServiceInfo) (cfg : ScannerCfg) (st : ScanType)
    (s : σ) (ip : IpAddr) (pl : List Nat) :
    (scanSingleHost getParams learn probe detect cfg st s ip pl).result.target_ip = ip :=
  rfl

theorem scanSingleHost_ports_map {σ : Type} (getParams : σ → IpAddr → OptimalParams)
    (learn : σ → ScanLearningData → σ) (probe : IpAddr → Nat → Nat → PortStatus × ℚ)
    (detect : IpAddr → Nat → Option ServiceInfo) (cfg : ScannerCfg) (st : ScanType)
    (s : σ) (ip : IpAddr) (pl : List Nat) :
    ((scanSingleHost getParams learn probe detect cfg st s ip pl).result.ports).map
      (·.port) = pl := by
  show ((servicePass (detect ip)
      (scanPorts (probe ip)
        (effectiveParams (getParams s ip) cfg.rate_limit cfg.timeout
          cfg.parallel_hosts).timeout pl)).1.map (·.port)) = pl
  rw [servicePass_map_port, scanPorts_map_port]

theorem scanSingleHost_status {σ : Type} (getParams : σ → IpAddr → OptimalParams)
    (learn : σ → ScanLearningData → σ) (probe : IpAddr → Nat → Nat → PortStatus × ℚ)
    (detect : IpAddr → Nat → Option ServiceInfo) (cfg : ScannerCfg) (st : ScanType)
    (s : σ) (ip : IpAddr) (pl : List Nat) :
    ∀ r ∈ (scanSingleHost getParams learn probe detect cfg st s ip pl).result.ports,
      r.status = (probe ip r.port (effectiveParams (getParams s ip) cfg.rate_limit
        cfg.timeout cfg.parallel_hosts).timeout).1 := by
  intro r hr
  obtain ⟨r0, hr0, hp, hs⟩ := servicePass_mem (detect ip) _ r hr
  obtain ⟨hst, -, -⟩ := scanPorts_mem _ _ _ r0 hr0
  rw [hs, hp, hst]

theorem scanCode_hosts {σ : Type} (getParams : σ → IpAddr → OptimalParams)
    (learn : σ → ScanLearningData → σ) (probe : IpAddr → Nat → Nat → PortStatus × ℚ)
    (detect : IpAddr → Nat → Option ServiceInfo) (cfg : ScannerCfg) (st : ScanType)
    (s : σ) (tspec : String) (targets : List IpAddr) (pl : List Nat) :
    (scanCode getParams learn probe detect cfg st s tspec targets pl).1.hosts =
      targets.map
        (fun ip => (scanSingleHost getParams learn probe detect cfg st s ip pl).result) :=
  rfl

theorem strJoin_cons (s : String) (l : List String) :
    String.join (s :: l) = s ++ String.join l := by
  simp only [String.join_eq, List.map_cons, List.flatten_cons]
  rfl

theorem strJoin_append (l₁ l₂ : List String) :
    String.join (l₁ ++ l₂) = String.join l₁ ++ String.join l₂ := by
  induction l₁ with
  | nil => simp [String.join_eq]
  | cons s rest ih =>
      rw [List.cons_append, strJoin_cons, strJoin_cons, ih, String.append_assoc]

theorem foldl_append_row {β : Type} (row : β → String) :
    ∀ (ps : List β) (acc : String),
      ps.foldl (fun a p => a ++ row p) acc = acc ++ String.join (ps.map row) := by
  intro ps
  induction ps with
  | nil =>
      intro acc
      simp only [List.foldl_nil, List.map_nil]
      exact (String.append_empty acc).symm
  | cons p rest ih =>
      intro acc
      rw [List.foldl_cons, ih, List.map_cons, strJoin_cons, String.append_assoc]

theorem foldl_hosts_csv (st : ScanType) :
    ∀ (hosts : List ScanResult) (acc : String),
      hosts.foldl
          (fun acc h => h.ports.foldl (fun acc2 p => acc2 ++ csvRow h st p) acc) acc =
        acc ++ String.join (hosts.flatMap (fun h => h.ports.map (csvRow h st))) := by
  intro hosts
  induction hosts with
  | nil =>
      intro acc
      simp only [List.foldl_nil, List.flatMap_nil]
      exact (String.append_empty acc).symm
  | cons h rest ih =>
      intro acc
      rw [List.foldl_cons, foldl_append_row, ih, List.flatMap_cons, strJoin_append,
        String.append_assoc]

/-! ## Claim theorems -/

/-- C9: the CSV rendering of a `MultiHostScanResult` is exactly the header
line `target,target_ip,port,status,scan_type` followed by one row per
(host, port) pair, hosts in result order and, within a host, ports in the
order of the host's `ports` list. -/
theorem c9_csv_shape (r : MultiHostScanResult) :
    format_csv r =
      csvHeader ++
        String.join (r.hosts.flatMap (fun h => h.ports.map (csvRow h r.scan_type))) ∧
    (r.hosts.flatMap (fun h => h.ports.map (csvRow h r.scan_type))).length =
      (r.hosts.map (fun h => h.ports.length)).sum := by
  constructor
  · exact foldl_hosts_csv r.scan_type r.hosts csvHeader
  · simp [List.length_flatMap, Function.comp_def, List.length_map]

/-- C10: `is_host_up` (and `tcp_ping`, which equals it) returns true iff some
attempt over the fixed ports 80, 443, 22, 445, 135, 3389, each with a budget
of half the given timeout, completes a TCP connection or fails with
`ConnectionRefused`; with none of these (in particular for a host listening
only on other ports, where every attempt times out or errors otherwise) it
returns false. -/
theorem c10_host_discovery (conn : Nat → Nat → ConnectOutcome) (timeout_ms : Nat) :
    tcp_ping conn timeout_ms = is_host_up conn timeout_ms ∧
      (is_host_up conn timeout_ms = true ↔
        ∃ p ∈ check_ports,
          conn p (timeout_ms / 2) = .connected ∨ conn p (timeout_ms / 2) = .refused) :=
  ⟨rfl, discoveryLoop_eq_true_iff conn (timeout_ms / 2) check_ports⟩

/-- C3, counterexample: with a cold adaptive profile (all components zero)
and the operator defaults of `cli.rs`, the per-host port-task semaphore is
sized `parallel_hosts = 10`, not 50: `scan_single_host` line 145 falls back
to the scanner's `parallel_hosts` field, and no value 50 reaches the scan
path (`config.rs`'s `default_parallelism: 50` is not wired in). -/
theorem c3_counterexample :
    portTaskSemaphoreSize ⟨0, 0, 0⟩ cliDefaultRateLimit cliDefaultTimeout
        cliDefaultParallelHosts = 10 ∧
      portTaskSemaphoreSize ⟨0, 0, 0⟩ cliDefaultRateLimit cliDefaultTimeout
        cliDefaultParallelHosts ≠ 50 := by
  decide

/-- C3, amended: when the adaptive profile supplies no parallelism, the
per-host port-task semaphore falls back to the scanner's operator-supplied
`parallel_hosts` value — the same value that sizes the host-level semaphore —
and that value defaults to 10 on the CLI. -/
theorem c3_cold_fallback (p : OptimalParams) (rate tmo ph : Nat)
    (h : p.parallelism = 0) :
    portTaskSemaphoreSize p rate tmo ph = hostSemaphoreSize ph ∧
      hostSemaphoreSize ph = ph ∧ cliDefaultParallelHosts = 10 := by
  refine ⟨?_, rfl, rfl⟩
  simp [portTaskSemaphoreSize, effectiveParams, hostSemaphoreSize, h]

/-- Witness for `c3_cold_fallback` at the CLI defaults. -/
theorem c3_cold_fallback_witness :
    portTaskSemaphoreSize ⟨0, 0, 0⟩ 100 1000 10 = hostSemaphoreSize 10 ∧
      hostSemaphoreSize 10 = 10 ∧ cliDefaultParallelHosts = 10 :=
  c3_cold_fallback ⟨0, 0, 0⟩ 100 1000 10 rfl

/-- C6, counterexample: the v4 link-local address 169.254.0.1 is neither
private nor loopback under the spec's §4.4 classifier, yet the `Connect` arm
of `scan_single_host` routes it to the fast connect probe because
`is_private_ip` also accepts `169.254.0.0/16`. -/
theorem c6_counterexample :
    connectProbeChoice (.v4 169 254 0 1) = .fast ∧
      specFastEligible (.v4 169 254 0 1) = false ∧
      classify_network (.v4 169 254 0 1) = .LinkLocal := by
  decide

/-- C4: in every host result the `service_detected` field is non-`None` only
on ports whose status is `Open`, and the service-identification layer is
invoked exactly on the ports whose probe classification was `Open` (the
detection pass does not alter statuses, so the `Open` ports of the final
result are the `Open` ports of the raw probe outcomes). -/
theorem c4_service_only_open {σ : Type} (getParams : σ → IpAddr → OptimalParams)
    (learn : σ → ScanLearningData → σ)
    (probe : IpAddr → Nat → Nat → PortStatus × ℚ)
    (detect : IpAddr → Nat → Option ServiceInfo) (cfg : ScannerCfg)
    (st : ScanType) (s : σ) (ip : IpAddr) (port_list : List Nat) :
    (∀ r ∈ (scanSingleHost getParams learn probe detect cfg st s ip port_list).result.ports,
        r.service_detected ≠ none → r.status = .Open) ∧
    (scanSingleHost getParams learn probe detect cfg st s ip port_list).service_log =
      (((scanSingleHost getParams learn probe detect cfg st s ip
            port_list).result.ports.filter (fun r => r.status == .Open)).map (·.port)) ∧
    (∀ r ∈ (scanSingleHost getParams learn probe detect cfg st s ip port_list).result.ports,
        r.status = (probe ip r.port (effectiveParams (getParams s ip) cfg.rate_limit
          cfg.timeout cfg.parallel_hosts).timeout).1) := by
  refine ⟨?_, ?_, ?_⟩
  · intro r hr
    exact servicePass_service_none (detect ip) _
      (fun r0 hr0 => (scanPorts_mem _ _ _ r0 hr0).2.1) r hr
  · exact servicePass_log (detect ip) _
  · intro r hr
    obtain ⟨r0, hr0, hp, hs⟩ := servicePass_mem (detect ip) _ r hr
    obtain ⟨hst, -, -⟩ := scanPorts_mem _ _ _ r0 hr0
    rw [hs, hp, hst]

/-- Witness for `c4_service_only_open` at a concrete two-port scan with one
`Open` port. -/
theorem c4_service_only_open_witness :
    (∀ r ∈ (scanSingleHost (σ := Unit) (fun _ _ => ⟨0, 0, 0⟩) (fun s _ => s)
        (fun _ p _ => (if p = 22 then .Open else .Closed, 3))
        (fun _ _ => some ⟨"SSH", none, none, 1⟩) ⟨100, 1000, 10⟩ .Connect ()
        (.v4 192 168 1 5) [22, 23]).result.ports,
        r.service_detected ≠ none → r.status = .Open) ∧
    (scanSingleHost (σ := Unit) (fun _ _ => ⟨0, 0, 0⟩) (fun s _ => s)
        (fun _ p _ => (if p = 22 then .Open else .Closed, 3))
        (fun _ _ => some ⟨"SSH", none, none, 1⟩) ⟨100, 1000, 10⟩ .Connect ()
        (.v4 192 168 1 5) [22, 23]).service_log =
      (((scanSingleHost (σ := Unit) (fun _ _ => ⟨0, 0, 0⟩) (fun s _ => s)
          (fun _ p _ => (if p = 22 then .Open else .Closed, 3))
          (fun _ _ => some ⟨"SSH", none, none, 1⟩) ⟨100, 1000, 10⟩ .Connect ()
          (.v4 192 168 1 5) [22, 23]).result.ports.filter
            (fun r => r.status == .Open)).map (·.port)) ∧
    (∀ r ∈ (scanSingleHost (σ := Unit) (fun _ _ => ⟨0, 0, 0⟩) (fun s _ => s)
        (fun _ p _ => (if p = 22 then .Open else .Closed, 3))
        (fun _ _ => some ⟨"SSH", none, none, 1⟩) ⟨100, 1000, 10⟩ .Connect ()
        (.v4 192 168 1 5) [22, 23]).result.ports,
        r.status = if r.port = 22 then PortStatus.Open else PortStatus.Closed) :=
  c4_service_only_open (σ := Unit) (fun _ _ => ⟨0, 0, 0⟩) (fun s _ => s)
    (fun _ p _ => (if p = 22 then .Open else .Closed, 3))
    (fun _ _ => some ⟨"SSH", none, none, 1⟩) ⟨100, 1000, 10⟩ .Connect ()
    (.v4 192 168 1 5) [22, 23]

/-- C5: when the port list is the output of the port expander, every host
result's `ports` sequence is strictly ascending by port number (hence each
port appears once), and the `hosts` sequence is the expanded target list in
order (each host result carries the target it was spawned for, and `join_all`
keeps spawn order). -/
theorem c5_result_ordering {σ : Type} (getParams : σ → IpAddr → OptimalParams)
    (learn : σ → ScanLearningData → σ) (probe : IpAddr → Nat → Nat → PortStatus × ℚ)
    (detect : IpAddr → Nat → Option ServiceInfo) (cfg : ScannerCfg) (st : ScanType)
    (s : σ) (tspec : String) (targets : List IpAddr) (tokens : List PortToken)
    (P : List Nat) (hP : parse_ports tokens = .ok P) :
    ((scanCode getParams learn probe detect cfg st s tspec targets P).1.hosts.map
        (·.target_ip)) = targets ∧
    ∀ h ∈ (scanCode getParams learn probe detect cfg st s tspec targets P).1.hosts,
      List.Sorted (· < ·) (h.ports.map (·.port)) := by
  constructor
  · rw [scanCode_hosts, List.map_map]
    simp only [Function.comp_def, scanSingleHost_target_ip, List.map_id']
  · intro h hh
    rw [scanCode_hosts] at hh
    obtain ⟨ip, -, rfl⟩ := List.mem_map.mp hh
    rw [scanSingleHost_ports_map]
    exact (parse_ports_sorted tokens P hP).1

/-- Witness for `c5_result_ordering` at a concrete two-host scan of the
expansion of `80,20-22`. -/
theorem c5_result_ordering_witness :
    ((scanCode (σ := Unit) (fun _ _ => ⟨0, 0, 0⟩) (fun s _ => s)
        (fun _ _ _ => (.Closed, 2)) (fun _ _ => none) ⟨100, 1000, 10⟩ .Connect ()
        "spec" [.v4 10 0 0 1, .v4 10 0 0 2] [20, 21, 22, 80]).1.hosts.map
          (·.target_ip)) = [.v4 10 0 0 1, .v4 10 0 0 2] ∧
    ∀ h ∈ (scanCode (σ := Unit) (fun _ _ => ⟨0, 0, 0⟩) (fun s _ => s)
        (fun _ _ _ => (.Closed, 2)) (fun _ _ => none) ⟨100, 1000, 10⟩ .Connect ()
        "spec" [.v4 10 0 0 1, .v4 10 0 0 2] [20, 21, 22, 80]).1.hosts,
      List.Sorted (· < ·) (h.ports.map (·.port)) :=
  c5_result_ordering (σ := Unit) (fun _ _ => ⟨0, 0, 0⟩) (fun s _ => s)
    (fun _ _ _ => (.Closed, 2)) (fun _ _ => none) ⟨100, 1000, 10⟩ .Connect ()
    "spec" [.v4 10 0 0 1, .v4 10 0 0 2] [.lit 80, .range 20 22] [20, 21, 22, 80]
    (by rfl)

/-- C7: a probe classification of `Error` never fails the containing scan —
for every probe behaviour the scan returns `ok`, every host and every port is
still present, and each port's result records the probe's classification
(`Error` included); conversely an expansion failure (either of targets or of
ports) returns that error, and the result is the same for every probe
because no probe is consulted. -/
theorem c7_failure_isolation {σ : Type} (getParams : σ → IpAddr → OptimalParams)
    (learn : σ → ScanLearningData → σ) (probe : IpAddr → Nat → Nat → PortStatus × ℚ)
    (detect : IpAddr → Nat → Option ServiceInfo) (cfg : ScannerCfg) (st : ScanType)
    (s : σ) (tspec : String) (targets : List IpAddr) (ports : List Nat) (e : String)
    (portsE : Except String (List Nat)) :
    (scanTop getParams learn probe detect cfg st s tspec (.ok targets) (.ok ports) =
        .ok (scanCode getParams learn probe detect cfg st s tspec targets ports)) ∧
    ((scanCode getParams learn probe detect cfg st s tspec targets ports).1.hosts.map
        (·.target_ip) = targets) ∧
    (∀ h ∈ (scanCode getParams learn probe detect cfg st s tspec targets ports).1.hosts,
        h.ports.map (·.port) = ports ∧
        ∀ r ∈ h.ports,
          r.status = (probe h.target_ip r.port (effectiveParams (getParams s h.target_ip)
            cfg.rate_limit cfg.timeout cfg.parallel_hosts).timeout).1) ∧
    (scanTop getParams learn probe detect cfg st s tspec (.error e) portsE = .error e) ∧
    (scanTop getParams learn probe detect cfg st s tspec (.ok targets) (.error e) =
      .error e) := by
  refine ⟨rfl, ?_, ?_, rfl, rfl⟩
  · rw [scanCode_hosts, List.map_map]
    simp only [Function.comp_def, scanSingleHost_target_ip, List.map_id']
  · intro h hh
    rw [scanCode_hosts] at hh
    obtain ⟨ip, -, rfl⟩ := List.mem_map.mp hh
    exact ⟨scanSingleHost_ports_map _ _ _ _ _ _ _ _ _,
      scanSingleHost_status _ _ _ _ _ _ _ _ _⟩

/-- Witness for `c7_failure_isolation`: a probe that classifies everything
`Error` still yields a completed scan. -/
theorem c7_failure_isolation_witness :
    scanTop (σ := Unit) (fun _ _ => ⟨0, 0, 0⟩) (fun s _ => s)
        (fun _ _ _ => (.Error, 0)) (fun _ _ => none) ⟨0, 5, 1⟩ .Connect ()
        "t" (.ok [.v4 8 8 8 8]) (.ok [1]) =
      .ok (scanCode (σ := Unit) (fun _ _ => ⟨0, 0, 0⟩) (fun s _ => s)
        (fun _ _ _ => (.Error, 0)) (fun _ _ => none) ⟨0, 5, 1⟩ .Connect ()
        "t" [.v4 8 8 8 8] [1]) :=
  (c7_failure_isolation (σ := Unit) (fun _ _ => ⟨0, 0, 0⟩) (fun s _ => s)
    (fun _ _ _ => (.Error, 0)) (fun _ _ => none) ⟨0, 5, 1⟩ .Connect ()
    "t" [.v4 8 8 8 8] [1] "boom" (.ok [1])).1

/-- C8: for a completed scan whose target list is the (first-seen-order
deduplicated) output of the target expander and whose port list is the
(ascending deduplicated) output of the port expander, `total_hosts` equals
the number of deduplicated expanded targets, `total_ports` equals the number
of deduplicated expanded ports, and every host result carries exactly one
`PortResult` per expanded port. -/
theorem c8_totals {σ : Type} (getParams : σ → IpAddr → OptimalParams)
    (learn : σ → ScanLearningData → σ) (probe : IpAddr → Nat → Nat → PortStatus × ℚ)
    (detect : IpAddr → Nat → Option ServiceInfo) (cfg : ScannerCfg) (st : ScanType)
    (s : σ) (tspec : String) (texp : List (List IpAddr)) (tokens : List PortToken)
    (P : List Nat) (hP : parse_ports tokens = .ok P) :
    (scanCode getParams learn probe detect cfg st s tspec (parse_targets_shape texp)
        P).1.total_hosts = (parse_targets_shape texp).length ∧
    (parse_targets_shape texp).Nodup ∧
    (scanCode getParams learn probe detect cfg st s tspec (parse_targets_shape texp)
        P).1.total_ports = P.length ∧
    P.Nodup ∧
    ∀ h ∈ (scanCode getParams learn probe detect cfg st s tspec
        (parse_targets_shape texp) P).1.hosts,
      h.ports.map (·.port) = P := by
  refine ⟨?_, dedupFirstSeen_nodup _, rfl, (parse_ports_sorted tokens P hP).2, ?_⟩
  · simp [scanCode, scanHostsCode]
  · intro h hh
    rw [scanCode_hosts] at hh
    obtain ⟨ip, -, rfl⟩ := List.mem_map.mp hh
    exact scanSingleHost_ports_map _ _ _ _ _ _ _ _ _

/-- Witness for `c8_totals` at a concrete expansion with a duplicated target
token and the port spec `80,20-22`. -/
theorem c8_totals_witness :
    (scanCode (σ := Unit) (fun _ _ => ⟨0, 0, 0⟩) (fun s _ => s)
        (fun _ _ _ => (.Closed, 2)) (fun _ _ => none) ⟨100, 1000, 10⟩ .Connect ()
        "t" (parse_targets_shape [[.v4 10 0 0 1, .v4 10 0 0 2], [.v4 10 0 0 1]])
        [20, 21, 22, 80]).1.total_hosts =
      (parse_targets_shape [[.v4 10 0 0 1, .v4 10 0 0 2], [.v4 10 0 0 1]]).length ∧
    (parse_targets_shape [[.v4 10 0 0 1, .v4 10 0 0 2], [.v4 10 0 0 1]]).Nodup ∧
    (scanCode (σ := Unit) (fun _ _ => ⟨0, 0, 0⟩) (fun s _ => s)
        (fun _ _ _ => (.Closed, 2)) (fun _ _ => none) ⟨100, 1000, 10⟩ .Connect ()
        "t" (parse_targets_shape [[.v4 10 0 0 1, .v4 10 0 0 2], [.v4 10 0 0 1]])
        [20, 21, 22, 80]).1.total_ports = [20, 21, 22, 80].length ∧
    [20, 21, 22, 80].Nodup ∧
    ∀ h ∈ (scanCode (σ := Unit) (fun _ _ => ⟨0, 0, 0⟩) (fun s _ => s)
        (fun _ _ _ => (.Closed, 2)) (fun _ _ => none) ⟨100, 1000, 10⟩ .Connect ()
        "t" (parse_targets_shape [[.v4 10 0 0 1, .v4 10 0 0 2], [.v4 10 0 0 1]])
        [20, 21, 22, 80]).1.hosts,
      h.ports.map (·.port) = [20, 21, 22, 80] :=
  c8_totals (σ := Unit) (fun _ _ => ⟨0, 0, 0⟩) (fun s _ => s)
    (fun _ _ _ => (.Closed, 2)) (fun _ _ => none) ⟨100, 1000, 10⟩ .Connect ()
    "t" [[.v4 10 0 0 1, .v4 10 0 0 2], [.v4 10 0 0 1]] [.lit 80, .range 20 22]
    [20, 21, 22, 80] (by rfl)

/-- The spec's definition of the timeout rate, stated from the spec's words
for comparison with the source computation: "timeout rate = fraction of
outcomes with status `Filtered` or `Error` where no reply was observed" (for
the connect probe family a `Filtered` classification means the budget elapsed
with no response, and `Error` is an I/O failure with no TCP reply). -/
def specTimeoutRate (rs : List PortResult) : ℚ :=
  ((rs.countP (fun r => r.status == .Filtered || r.status == .Error)) : ℚ) /
    (rs.length : ℚ)

/-- A host whose probes all time out: both ports classified `Filtered`, each
with a recorded elapsed time, as the port-task closure always records one. -/
def c2AllFilteredHost : HostOutcome Unit :=
  scanSingleHost (fun _ _ => ⟨0, 0, 0⟩) (fun s _ => s)
    (fun _ _ _ => (.Filtered, 5)) (fun _ _ => none)
    ⟨100, 1000, 10⟩ .Connect () (.v4 203 0 113 7) [1, 2]

/-- C2: on a host whose probes all time out (every port `Filtered`), the
`timeout_rate` handed to the adaptive controller is 0, not the 1 the claim
requires: lines 227–233 of `scanner.rs` count an outcome as a timeout only
when its `response_time` is `None`, but the port-task closure (line 192)
records `Some(elapsed)` for every outcome, so `timeout_count` is always 0
(and `scan_performance` always 1), while the spec's fraction of
`Filtered`/`Error` outcomes is 1 here. -/
theorem c2_timeout_rate_always_zero :
    (∀ r ∈ c2AllFilteredHost.result.ports, r.status = .Filtered) ∧
    specTimeoutRate c2AllFilteredHost.result.ports = 1 ∧
    c2AllFilteredHost.learning.timeout_rate = 0 ∧
    c2AllFilteredHost.learning.scan_performance = 1 := by
  have hports : c2AllFilteredHost.result.ports =
      [{ port := 1, status := .Filtered, is_filtered := true, response_time := some 5,
         service_detected := none },
       { port := 2, status := .Filtered, is_filtered := true, response_time := some 5,
         service_detected := none }] := rfl
  have hrate : c2AllFilteredHost.learning.timeout_rate =
      ((0 : Nat) : ℚ) / ((2 : Nat) : ℚ) := rfl
  have hperf : c2AllFilteredHost.learning.scan_performance =
      1 - ((0 : Nat) : ℚ) / ((2 : Nat) : ℚ) := rfl
  refine ⟨?_, ?_, ?_, ?_⟩
  · rw [hports]; decide
  · rw [hports]
    norm_num [specTimeoutRate, List.countP, List.countP.go]
  · rw [hrate]; norm_num
  · rw [hperf]; norm_num

/-- Inputs exhibiting the dropped adaptive state: the adaptive state is a
counter, `get_optimal_params` proposes the counter as the timeout, learning
increments the counter, and the probe echoes the effective timeout as its
elapsed time, so each host's recorded response time reveals which state its
parameters were derived from. -/
def c1GetParams : Nat → IpAddr → OptimalParams := fun s _ => ⟨s, 0, 0⟩

/-- Learning for the C1 instance: increment the counter. -/
def c1Learn : Nat → ScanLearningData → Nat := fun s _ => s + 1

/-- Probe for the C1 instance: echo the effective timeout. -/
def c1Probe : IpAddr → Nat → Nat → PortStatus × ℚ := fun _ _ tmo => (.Closed, (tmo : ℚ))

/-- Two hosts of the same Private network class. -/
def c1Targets : List IpAddr := [.v4 10 0 0 1, .v4 10 0 0 2]

/-- The two-host scan as `scanner.rs` runs it (per-host clones of the
adaptive state, operator timeout 7). -/
def c1Code : List ScanResult × Nat :=
  scanHostsCode c1GetParams c1Learn c1Probe (fun _ _ => none) ⟨0, 7, 1⟩ .Connect 0
    c1Targets [80]

/-- The same scan with the state threading the spec describes. -/
def c1SpecRun : List ScanResult × Nat :=
  scanHostsSpec c1GetParams c1Learn c1Probe (fun _ _ => none) ⟨0, 7, 1⟩ .Connect 0
    c1Targets [80]

/-- C1: the telemetry learned from a completed host is not folded into the
profile held by the scanner, and later hosts of the same multi-host scan do
not see it: `scan` (lines 94–103) hands every host task a clone of the
adaptive state and the clone is dropped after `learn_from_scan`, so the
scanner's state is returned unchanged for every input (first conjunct), and
in the concrete two-host run the code leaves the state at 0 and derives host
2's parameters from the initial state (response 7, the operator default),
where the spec's threading reaches state 2 and derives host 2's parameters
from the learned state (response 1). -/
theorem c1_learning_not_folded :
    (∀ (σ : Type) (getParams : σ → IpAddr → OptimalParams)
        (learn : σ → ScanLearningData → σ)
        (probe : IpAddr → Nat → Nat → PortStatus × ℚ)
        (detect : IpAddr → Nat → Option ServiceInfo) (cfg : ScannerCfg)
        (st : ScanType) (s : σ) (targets : List IpAddr) (pl : List Nat),
      (scanHostsCode getParams learn probe detect cfg st s targets pl).2 = s) ∧
    c1Code.2 = 0 ∧ c1SpecRun.2 = 2 ∧
    c1Code.1.map (fun h => h.ports.map (·.response_time)) = [[some 7], [some 7]] ∧
    c1SpecRun.1.map (fun h => h.ports.map (·.response_time)) = [[some 7], [some 1]] :=
  ⟨fun _ _ _ _ _ _ _ _ _ _ => rfl, by decide⟩

/-- C6, amended: for a `Connect` scan the fast connect probe is used exactly
when `is_private_ip` accepts the address — v4 in `10/8`, `172.16/12`,
`192.168/16`, `127/8` or `169.254/16` (private, loopback, or link-local), v6
equal to `::1` or with first segment `fe80`, `fc00` or `fd00` — and the
ordinary connect probe for every other address. -/
theorem c6_fast_connect_characterisation :
    (∀ o0 o1 o2 o3 : Nat,
      connectProbeChoice (.v4 o0 o1 o2 o3) = .fast ↔
        (o0 = 10 ∨ (o0 = 172 ∧ 16 ≤ o1 ∧ o1 ≤ 31) ∨ (o0 = 192 ∧ o1 = 168) ∨
          o0 = 127 ∨ (o0 = 169 ∧ o1 = 254))) ∧
    (∀ s0 s1 s2 s3 s4 s5 s6 s7 : Nat,
      connectProbeChoice (.v6 s0 s1 s2 s3 s4 s5 s6 s7) = .fast ↔
        ((s0 = 0 ∧ s1 = 0 ∧ s2 = 0 ∧ s3 = 0 ∧ s4 = 0 ∧ s5 = 0 ∧ s6 = 0 ∧ s7 = 1) ∨
          s0 = 0xfe80 ∨ s0 = 0xfc00 ∨ s0 = 0xfd00)) := by
  constructor <;> intros <;> rw [connectProbeChoice_eq_fast] <;>
    simp [is_private_ip, IpAddr.isLoopbackV6] <;> tauto

end MLScan
